import Mathlib

/-!
Verification of the mlx-client serve core against its natural-language
specification.  The definitions below are a shallow embedding of the Rust
source under src/: the schema normalizer and deployment submitter of
src/serve/create.rs, the endpoint resolver of src/serve/mod.rs, and the
test orchestrator of src/serve/run.rs.  External effects (HTTP calls,
message-queue publishes, spawned commands) are modelled by explicit
oracles and event traces.
-/

namespace MlxClient

/-- JSON values as manipulated through serde_json::Value in create.rs.
Numeric payloads are split into integer and float forms; nothing in the
embedded code inspects a float payload, so floats carry their literal
text. Objects are association lists of key/value pairs. -/
inductive JVal where
  | null : JVal
  | bool (b : Bool) : JVal
  | int (n : Int) : JVal
  | flt (lit : String) : JVal
  | str (s : String) : JVal
  | arr (elems : List JVal) : JVal
  | obj (fields : List (String × JVal)) : JVal

/-- First value bound to a key in an association list, as
serde_json::Map lookup. -/
def findVal (k : String) : List (String × JVal) → Option JVal
  | [] => none
  | (k2, v) :: rest => if k2 = k then some v else findVal k rest

/-- Value::get on a JSON value: field lookup on objects, none otherwise. -/
def JVal.get (j : JVal) (k : String) : Option JVal :=
  match j with
  | .obj fields => findVal k fields
  | _ => none

/-- Value::as_str from serde_json: some payload on strings, none otherwise. -/
def JVal.as_str (j : JVal) : Option String :=
  match j with
  | .str s => some s
  | _ => none

/-- Removal of every binding of a key, as serde_json::Map::remove. -/
def eraseKey (k : String) : List (String × JVal) → List (String × JVal)
  | [] => []
  | (k2, v) :: rest => if k2 = k then eraseKey k rest else (k2, v) :: eraseKey k rest

/-- Param of src/serve/create.rs: a named, typed, required-or-optional
field of the service contract. -/
structure Param where
  name : String
  dtype : String
  required : Bool
deriving Repr, DecidableEq

/-- ServiceInputParams of src/serve/create.rs. -/
structure ServiceInputParams where
  path : Option (List Param)
  query : Option (List Param)
  body : Option (List Param)
deriving Repr, DecidableEq

/-- ServiceParams of src/serve/create.rs: the normalized service schema.
The output HashMap is embedded as an association list built with
last-write-wins insertion, matching HashMap collect semantics up to
iteration order. -/
structure ServiceParams where
  input : ServiceInputParams
  output : List (String × Param)
deriving Repr, DecidableEq

/-- Errors raised by build_service_params_from_json in create.rs; each
constructor carries the data interpolated into the corresponding
err2! message (for per-parameter failures, the whole offending
parameter value p). -/
inductive SchemaErr where
  | missingInput : SchemaErr
  | missingOutput : SchemaErr
  | expectedArray (v : JVal) : SchemaErr
  | expectedObject (p : JVal) : SchemaErr
  | missingRequired (p : JVal) : SchemaErr
  | invalidRequiredType (p : JVal) : SchemaErr
  | paramConvertFailed (p : JVal) : SchemaErr

/-- convert_required of create.rs lines 312-317: the literal string
True maps to true and every other string maps to false. -/
def convert_required (required : String) : Bool :=
  match required with
  | "True" => true
  | _ => false

/-- serde_json::from_value for Param: name and dtype must be present as
JSON strings, required must be present as a JSON boolean; unknown
fields are ignored (serde default). -/
def paramOfFields (fields : List (String × JVal)) : Option Param :=
  match findVal "name" fields, findVal "dtype" fields, findVal "required" fields with
  | some (.str n), some (.str d), some (.bool r) => some ⟨n, d, r⟩
  | _, _, _ => none

/-- The per-parameter conversion closure inside
build_service_params_from_json (create.rs lines 328-358): require an
object, remove the required field, require it to be a string, coerce it
with convert_required, re-insert it as a boolean, and deserialize the
result into Param. -/
def convertParam (p : JVal) : Except SchemaErr Param :=
  match p with
  | .obj fields =>
    match findVal "required" fields with
    | none => .error (.missingRequired p)
    | some rv =>
      match rv.as_str with
      | none => .error (.invalidRequiredType p)
      | some s =>
        let fields2 := eraseKey "required" fields ++ [("required", JVal.bool (convert_required s))]
        match paramOfFields fields2 with
        | some param => .ok param
        | none => .error (.paramConvertFailed p)
  | _ => .error (.expectedObject p)

/-- convert_params of create.rs lines 319-363: the value must be an
array and every element must convert, first error wins in order. -/
def convertParams (v : JVal) : Except SchemaErr (List Param) :=
  match v with
  | .arr elems => elems.mapM convertParam
  | _ => .error (.expectedArray v)

/-- Insertion with replacement, as HashMap::insert via collect:
a later binding of the same name overwrites the earlier one. -/
def insertReplace (key : String) (p : Param) : List (String × Param) → List (String × Param)
  | [] => [(key, p)]
  | (k2, q) :: rest =>
    if k2 = key then (key, p) :: rest else (k2, q) :: insertReplace key p rest

/-- convert_output_params of create.rs lines 379-423: same element
conversion, collected into a name-keyed map (last write wins). -/
def convertOutputParams (v : JVal) : Except SchemaErr (List (String × Param)) :=
  match v with
  | .arr elems => do
    let ps ← elems.mapM convertParam
    return ps.foldl (fun acc p => insertReplace p.name p acc) []
  | _ => .error (.expectedArray v)

/-- An optional input group: absent keys become none, present keys must
convert (create.rs lines 365-375, the map_or(Ok(None), ...) pattern). -/
def convertOptGroup (g : Option JVal) : Except SchemaErr (Option (List Param)) :=
  match g with
  | none => .ok none
  | some v => do return some (← convertParams v)

/-- build_service_params_from_json of create.rs lines 297-431, applied
to the already-parsed JSON document (the textual parse via
serde_json::from_str is external to the embedding). -/
def build_service_params_from_json (json : JVal) : Except SchemaErr ServiceParams := do
  let input ← match json.get "input" with
    | some i => pure i
    | none => .error .missingInput
  let output ← match json.get "output" with
    | some o => pure o
    | none => .error .missingOutput
  let path ← convertOptGroup (input.get "path")
  let query ← convertOptGroup (input.get "query")
  let body ← convertOptGroup (input.get "body")
  let out ← convertOutputParams output
  return { input := { path := path, query := query, body := body }, output := out }

/-! Deployment submitter and image pipeline (src/serve/create.rs). -/

/-- IMAGE_REGISTRY constant of create.rs line 22. -/
def IMAGE_REGISTRY : String := "ghcr.io/alexlatif/wondera"

/-- Quantity of k8s_openapi: a newtype over the literal string sent to
the control plane. -/
structure Quantity where
  val : String
deriving Repr, DecidableEq

/-- DeployServiceConf of create.rs lines 28-59: the CLI deploy
configuration. It carries no architecture field. -/
structure DeployServiceConf where
  service_name : String
  replicas : Option Nat
  cpu_limit : Option String
  gpu_limit : Option String
  memory_limit : String
  concurrent_jobs : Nat
deriving Repr, DecidableEq

/-- ResourceRequest of create.rs lines 74-87. -/
structure ResourceRequest where
  replicas : Option Nat
  cpu_limit : Quantity
  memory_limit : Quantity
  use_gpu : Bool
  gpu_limit : Quantity
  concurrent_jobs : Nat
deriving Repr, DecidableEq

/-- UploadHandlerParams of create.rs lines 61-72: the deployment
request body posted to /upload_service. -/
structure UploadHandlerParams where
  service_name : String
  image_uri : String
  resource_request : ResourceRequest
  service_schema : ServiceParams
  env_vars : Option (List (String × String))
deriving Repr, DecidableEq

/-- service_id construction of create.rs line 123: the service name
joined to a freshly generated UUID. -/
def service_id (service_name uuid : String) : String :=
  service_name ++ "-" ++ uuid

/-- image_uri construction of create.rs line 124: the registry, a
colon, and the service id. -/
def image_uri (service_name uuid : String) : String :=
  IMAGE_REGISTRY ++ ":" ++ service_id service_name uuid

/-- ResourceRequest assembly of create.rs lines 157-169: cpu and gpu
default to the string 0 when absent, memory is the configured string
verbatim, use_gpu reflects presence of a gpu limit, replicas defaults
to 1. -/
def assemble_resource_request (conf : DeployServiceConf) : ResourceRequest :=
  { replicas := some (conf.replicas.getD 1)
    cpu_limit := ⟨conf.cpu_limit.getD "0"⟩
    memory_limit := ⟨conf.memory_limit⟩
    use_gpu := conf.gpu_limit.isSome
    gpu_limit := ⟨conf.gpu_limit.getD "0"⟩
    concurrent_jobs := conf.concurrent_jobs }

/-- UploadHandlerParams assembly of create.rs lines 171-177. -/
def assemble_upload_params (conf : DeployServiceConf) (uuid : String)
    (schema : ServiceParams) : UploadHandlerParams :=
  { service_name := conf.service_name
    image_uri := image_uri conf.service_name uuid
    resource_request := assemble_resource_request conf
    service_schema := schema
    env_vars := some [] }

/-- An external command invocation: program plus argument vector. -/
structure Cmd where
  prog : String
  args : List String
deriving Repr, DecidableEq

/-- The four commands issued by build_tag_and_push_image of create.rs
lines 271-295, in order: build, tag, registry login, push. The
registry token is interpolated into the login argument vector after
the literal --password flag. -/
def build_tag_and_push_cmds (sid uri token : String) : List Cmd :=
  [ ⟨"podman", ["build", "-t", sid, "."]⟩
  , ⟨"podman", ["tag", sid, uri]⟩
  , ⟨"podman", ["login", "ghcr.io", "--username", "USERNAME", "--password", token]⟩
  , ⟨"podman", ["push", uri]⟩ ]

/-- Staged execution of a command list: each run_command result is
propagated with the question-mark operator, so execution stops at the
first failing command. The oracle reports whether a given command
succeeds; the result is the trace of commands actually invoked and
whether the whole pipeline succeeded. -/
def exec_staged (exec : Cmd → Bool) : List Cmd → List Cmd × Bool
  | [] => ([], true)
  | c :: rest =>
    if exec c then
      let (tr, r) := exec_staged exec rest
      (c :: tr, r)
    else ([c], false)

/-- The command trace of the image pipeline inside deploy_service
(create.rs lines 123-138): the pipeline is entered unconditionally
after the podman preflight, with no inspection of any architecture
value. -/
def deploy_pipeline_trace (conf : DeployServiceConf) (uuid token : String)
    (exec : Cmd → Bool) : List Cmd × Bool :=
  exec_staged exec
    (build_tag_and_push_cmds (service_id conf.service_name uuid)
      (image_uri conf.service_name uuid) token)

/-! Endpoint resolver (src/serve/mod.rs). -/

/-- LOCAL_SERVER_URL of serve/mod.rs line 22. -/
def LOCAL_SERVER_URL : String := "http://localhost:3000"

/-- REMOTE_SERVER_URL of serve/mod.rs line 23. -/
def REMOTE_SERVER_URL : String := "http://3.132.162.86:30000"

/-- reqwest StatusCode::is_success: the 2xx range. -/
def status_is_success (code : Nat) : Bool :=
  200 ≤ code && code < 300

/-- is_server_available of serve/mod.rs lines 44-49: probe the URL with
GET; a transport error (none) or a non-success status is unavailable.
The oracle maps a URL to the probe outcome (none for a connection
error, some code for a response with that status). -/
def is_server_available (probe : String → Option Nat) (url : String) : Bool :=
  match probe url with
  | some code => status_is_success code
  | none => false

/-- lazy_load_server_url of serve/mod.rs lines 27-42: local first, then
remote, and a panic (modelled as none) when neither answers
successfully. -/
def lazy_load_server_url (probe : String → Option Nat) : Option String :=
  if is_server_available probe LOCAL_SERVER_URL then some LOCAL_SERVER_URL
  else if is_server_available probe REMOTE_SERVER_URL then some REMOTE_SERVER_URL
  else none

/-! Test orchestrator (src/serve/run.rs). -/

/-- TOML values as manipulated through toml::Value in run.rs. Float
payloads carry their literal text; nothing in the embedded code
computes with them. -/
inductive TVal where
  | str (s : String) : TVal
  | int (n : Int) : TVal
  | flt (lit : String) : TVal
  | bool (b : Bool) : TVal
  | arr (elems : List TVal) : TVal
  | table (fields : List (String × TVal)) : TVal

/-- toml::Value::is_str. -/
def TVal.is_str : TVal → Bool
  | .str _ => true
  | _ => false

/-- toml::Value::is_integer. -/
def TVal.is_integer : TVal → Bool
  | .int _ => true
  | _ => false

/-- toml::Value::is_float. -/
def TVal.is_float : TVal → Bool
  | .flt _ => true
  | _ => false

/-- First value bound to a key in a TOML table. -/
def findTVal (k : String) : List (String × TVal) → Option TVal
  | [] => none
  | (k2, v) :: rest => if k2 = k then some v else findTVal k rest

/-- TestConfig of run.rs lines 15-30: the deserialized manifest. The
stage and resources fields are marked serde(skip_deserializing), so
they are always None regardless of the manifest contents; only the
service name and the test table are read. -/
structure TestConfig where
  service : String
  stage : Option String
  resources : Option (List (String × TVal))
  tests : List (String × List (String × TVal))

/-- serde deserialization of TestConfig from a parsed TOML table:
service must be a string, test must be a table of tables, unknown keys
(including resources and its arch entry) are ignored, and the skipped
fields are set to their defaults. -/
def parse_test_config (tbl : List (String × TVal)) : Option TestConfig :=
  match findTVal "service" tbl with
  | some (.str s) =>
    match findTVal "test" tbl with
    | some (.table entries) =>
      match entries.mapM (fun e =>
          match e.2 with
          | .table fields => some (e.1, fields)
          | _ => none) with
      | some tests => some ⟨s, none, none, tests⟩
      | none => none
    | _ => none
  | _ => none

/-- Validation errors of validate_tests in run.rs lines 137-183; each
constructor carries the data interpolated into the panic message. -/
inductive VErr where
  | typeMismatch (test pname dtype : String) (found : TVal) : VErr
  | missingRequiredField (test pname : String) : VErr
  | specNotFound (test : String) : VErr

/-- The per-parameter check of validate_tests (run.rs lines 142-176):
a present field must match the declared dtype tag (string, int, float;
any other dtype is unchecked); an absent field is an error exactly when
the parameter is declared required. -/
def check_param (test : String) (spec : List (String × TVal)) (p : Param) : Option VErr :=
  match findTVal p.name spec with
  | some v =>
    match p.dtype with
    | "string" => if v.is_str then none else some (.typeMismatch test p.name "string" v)
    | "int" => if v.is_integer then none else some (.typeMismatch test p.name "int" v)
    | "float" => if v.is_float then none else some (.typeMismatch test p.name "float" v)
    | _ => none
  | none =>
    if p.required then some (.missingRequiredField test p.name) else none

/-- The whole-fixture check of one selected test: when the schema has
no body group nothing is checked; otherwise the declared body
parameters are checked in order, first panic wins. -/
def check_test (test : String) (cfg : TestConfig) (params : ServiceParams) : Option VErr :=
  match findTVal2 test cfg.tests with
  | some spec =>
    match params.input.body with
    | some body => body.findSome? (check_param test spec)
    | none => none
  | none => some (.specNotFound test)
where
  findTVal2 (k : String) : List (String × List (String × TVal)) → Option (List (String × TVal))
    | [] => none
    | (k2, v) :: rest => if k2 = k then some v else findTVal2 k rest

/-- validate_tests of run.rs lines 137-183, instrumented with the list
of tests whose check completed without a panic before control left the
loop: the loop panics inside the first failing fixture, so the function
stops there and later tests are never examined. -/
def validate_tests_traced (tests : List String) (cfg : TestConfig)
    (params : ServiceParams) : List String × Option VErr :=
  match tests with
  | [] => ([], none)
  | t :: rest =>
    match check_test t cfg params with
    | some e => ([], some e)
    | none =>
      let (tr, r) := validate_tests_traced rest cfg params
      (t :: tr, r)

/-- Observable actions of run_tests (run.rs lines 32-135): a completed
validation of one fixture, the spawned local python service, a remote
POST of one test, a local publish of one test, and the terminal stop
sentinel publish. -/
inductive Event where
  | checked (test : String) : Event
  | spawnPython : Event
  | posted (test : String) : Event
  | published (test : String) : Event
  | publishStop : Event
deriving Repr, DecidableEq

/-- The per-test dispatch loop of run_tests (run.rs lines 79-125). In
remote mode the HTTP send result is propagated with the question-mark
operator, so a transport failure aborts the loop after logging nothing
further; in local mode the publish result is bound to an ignored
binding, so the loop continues regardless of the outcome. The oracle
reports whether the transport action for a given test succeeds. -/
def dispatch_loop (remote : Bool) (send_ok : String → Bool) :
    List String → List Event × Bool
  | [] => ([], true)
  | t :: rest =>
    if remote then
      if send_ok t then
        let (evs, r) := dispatch_loop remote send_ok rest
        (.posted t :: evs, r)
      else ([.posted t], false)
    else
      let (evs, r) := dispatch_loop remote send_ok rest
      (.published t :: evs, r)

/-- Outcome of one run_tests invocation: success, a validation panic,
or a propagated remote transport error. -/
inductive RunErr where
  | validation (e : VErr) : RunErr
  | transport : RunErr

/-- run_tests of run.rs lines 32-135 after fixture selection: validate
every selected test (panicking at the first invalid fixture, before
anything is dispatched), then in local mode spawn the python service,
dispatch each test in order, and finish with the stop sentinel; in
remote mode dispatch each test until the first transport failure, which
aborts the invocation. -/
def run_tests_model (tests : List String) (cfg : TestConfig) (params : ServiceParams)
    (remote : Bool) (send_ok : String → Bool) : List Event × Except RunErr Unit :=
  let (tr, verr) := validate_tests_traced tests cfg params
  let vevents := tr.map Event.checked
  match verr with
  | some e => (vevents, .error (.validation e))
  | none =>
    let pre := if remote then [] else [Event.spawnPython]
    let (devs, ok) := dispatch_loop remote send_ok tests
    if ok then
      let post := if remote then [] else [Event.publishStop]
      (vevents ++ pre ++ devs ++ post, .ok ())
    else (vevents ++ pre ++ devs, .error .transport)

/-- Fixture selection of run_tests (run.rs lines 46-54): a requested
name must exist in the test table (otherwise the command panics,
modelled as none); without a requested name every test in the table is
selected in table order. -/
def select_tests (requested : Option String) (cfg : TestConfig) : Option (List String) :=
  match requested with
  | some n => if cfg.tests.any (fun e => e.1 = n) then some [n] else none
  | none => some (cfg.tests.map (·.1))

/-! Concrete fixtures used by counterexamples and witnesses. -/

/-- A schema document whose single path parameter carries the JSON
boolean true in its required field. -/
def schemaWithBoolRequired : JVal :=
  .obj [ ("input", .obj [("path", .arr
            [.obj [("name", .str "x"), ("dtype", .str "string"), ("required", .bool true)]])])
       , ("output", .arr []) ]

/-- The parameter object inside schemaWithBoolRequired. -/
def paramWithBoolRequired : JVal :=
  .obj [("name", .str "x"), ("dtype", .str "string"), ("required", .bool true)]

/-- A parameter object whose required field is the lowercase string true. -/
def paramWithLowercaseTrue : JVal :=
  .obj [("name", .str "x"), ("dtype", .str "string"), ("required", .str "true")]

/-- A parameter object whose required field is the unrelated string yes. -/
def paramWithYesRequired : JVal :=
  .obj [("name", .str "x"), ("dtype", .str "string"), ("required", .str "yes")]

/-! Claim C1. -/

/-- Claim C1, counterexample. The claim says the required field accepts
JSON booleans and the strings True, true, False, false, resolving each
to the correct boolean, and that every other representation is a
SchemaError. The code refutes all three parts: a JSON boolean true
makes normalization fail with the invalid-required-type error, the
string true resolves to the boolean false, and the unrelated string yes
is accepted (as false) instead of erroring. -/
theorem required_flag_counterexample :
    build_service_params_from_json schemaWithBoolRequired
      = .error (.invalidRequiredType paramWithBoolRequired)
    ∧ convertParam paramWithLowercaseTrue = .ok ⟨"x", "string", false⟩
    ∧ convertParam paramWithYesRequired = .ok ⟨"x", "string", false⟩ := by
  refine ⟨rfl, rfl, rfl⟩

/-- Claim C1, amended. For a parameter object with string name and
dtype fields, the required field resolves through convert_required:
exactly the string True yields the boolean true and every other string
yields false, while any non-string required value (JSON booleans
included) fails with the invalid-required-type SchemaError carrying the
offending parameter object. -/
theorem required_flag_amended (n d : String) (v : JVal) :
    (∀ s, v = .str s →
      convertParam (.obj [("name", .str n), ("dtype", .str d), ("required", v)])
        = .ok ⟨n, d, convert_required s⟩)
    ∧ (∀ s, convert_required s = true ↔ s = "True")
    ∧ (v.as_str = none →
      convertParam (.obj [("name", .str n), ("dtype", .str d), ("required", v)])
        = .error (.invalidRequiredType
            (.obj [("name", .str n), ("dtype", .str d), ("required", v)]))) := by
  refine ⟨?_, ?_, ?_⟩
  · rintro s rfl
    rfl
  · intro s
    unfold convert_required
    constructor
    · intro h
      split at h
      · rfl
      · exact absurd h (by simp)
    · rintro rfl
      rfl
  · intro h
    cases v <;> first
      | rfl
      | exact absurd h (by simp [JVal.as_str])

/-- Claim C1, witness for the amended theorem at concrete inputs: a
boolean required value errors and the string True resolves to true. -/
theorem required_flag_amended_witness :
    convertParam paramWithBoolRequired
      = .error (.invalidRequiredType paramWithBoolRequired)
    ∧ convertParam (.obj [("name", .str "x"), ("dtype", .str "string"), ("required", .str "True")])
      = .ok ⟨"x", "string", true⟩ := by
  constructor
  · exact (required_flag_amended "x" "string" (.bool true)).2.2 rfl
  · have h := (required_flag_amended "x" "string" (.str "True")).1 "True" rfl
    simpa [convert_required] using h

/-! Claim C2. -/

/-- A manifest test table with two well-typed fixtures. -/
def cfgTwoValid : TestConfig :=
  ⟨"mnist", none, none,
    [("a", [("x", .str "v")]), ("b", [("x", .str "w")])]⟩

/-- A schema whose body declares one required string parameter x. -/
def paramsBodyX : ServiceParams :=
  ⟨⟨none, none, some [⟨"x", "string", true⟩]⟩, []⟩

/-- Claim C2, counterexample. The claim says a transport failure of a
single test is logged and the orchestrator proceeds to the next test in
both modes. In remote mode the send result is propagated with the
question-mark operator instead: when the first of two valid tests fails
to send, the invocation aborts with the transport error and the second
test is never dispatched. -/
theorem dispatch_transport_counterexample :
    run_tests_model ["a", "b"] cfgTwoValid paramsBodyX true (fun _ => false)
      = ([.checked "a", .checked "b", .posted "a"], .error .transport)
    ∧ Event.posted "b"
        ∉ (run_tests_model ["a", "b"] cfgTwoValid paramsBodyX true (fun _ => false)).1 := by
  refine ⟨rfl, by decide⟩

/-- Claim C2, amended. In local mode every selected test is published
regardless of publish outcomes (the publish result is discarded, not
logged) and the loop always completes; in remote mode the first
transport failure aborts the loop: exactly the tests up to and
including the failing one are dispatched. -/
theorem dispatch_transport_amended :
    (∀ (tests : List String) (ok1 ok2 : String → Bool),
      dispatch_loop false ok1 tests = (tests.map Event.published, true)
      ∧ dispatch_loop false ok1 tests = dispatch_loop false ok2 tests)
    ∧ (∀ (l1 : List String) (t : String) (l2 : List String) (send_ok : String → Bool),
      (∀ x ∈ l1, send_ok x = true) → send_ok t = false →
      dispatch_loop true send_ok (l1 ++ t :: l2)
        = (l1.map Event.posted ++ [Event.posted t], false)) := by
  constructor
  · intro tests ok1 ok2
    have hgen : ∀ (ts : List String) (f : String → Bool),
        dispatch_loop false f ts = (ts.map Event.published, true) := by
      intro ts f
      induction ts with
      | nil => rfl
      | cons t rest ih => simp [dispatch_loop, ih]
    rw [hgen tests ok1, hgen tests ok2]
    exact ⟨rfl, rfl⟩
  · intro l1 t l2 send_ok h1 ht
    induction l1 with
    | nil => simp [dispatch_loop, ht]
    | cons x rest ih =>
      have hx : send_ok x = true := h1 x (by simp)
      have hrest : ∀ y ∈ rest, send_ok y = true := fun y hy => h1 y (by simp [hy])
      simp [dispatch_loop, hx, ih hrest]

/-- Claim C2, witness for the amended theorem: two concrete tests in
local mode are both published, and in remote mode a failing first test
truncates the dispatch after itself. -/
theorem dispatch_transport_amended_witness :
    dispatch_loop false (fun _ => false) ["a", "b"]
      = ([.published "a", .published "b"], true)
    ∧ dispatch_loop true (fun t => t == "a") ["a", "b"]
      = ([.posted "a", .posted "b"], false) := by
  constructor
  · exact (dispatch_transport_amended.1 ["a", "b"] (fun _ => false) (fun _ => false)).1
  · exact dispatch_transport_amended.2 ["a"] "b" [] (fun t => t == "a")
      (by decide) (by decide)

/-! Claim C3. -/

/-- A manifest test table whose two fixtures are both invalid against
paramsBodyX: t1 binds x to an integer, t2 lacks x entirely. -/
def cfgTwoInvalid : TestConfig :=
  ⟨"mnist", none, none,
    [("t1", [("x", .int 1)]), ("t2", [("y", .str "a")])]⟩

/-- Claim C3, counterexample. The claim says a validation error is
reported only after all selected tests have been checked. The code
panics inside the first failing fixture: with two invalid fixtures the
invocation aborts carrying only the first error, the completed-check
trace is empty, and the second fixture is never examined. -/
theorem batch_validation_counterexample :
    run_tests_model ["t1", "t2"] cfgTwoInvalid paramsBodyX false (fun _ => true)
      = ([], .error (.validation (.typeMismatch "t1" "x" "string" (.int 1))))
    ∧ "t2" ∉ (validate_tests_traced ["t1", "t2"] cfgTwoInvalid paramsBodyX).1 := by
  refine ⟨rfl, by decide⟩

/-- Claim C3, amended. Validation still strictly precedes execution: a
validation failure yields only checked events and no dispatch, and when
every selected fixture is valid the whole selection is checked before
any dispatch event. But validation is fail-fast per fixture, not batch:
it stops at the first invalid fixture, whose error surfaces with later
fixtures unexamined. -/
theorem batch_validation_amended :
    (∀ (tests : List String) (cfg : TestConfig) (params : ServiceParams)
        (remote : Bool) (send_ok : String → Bool) (e : VErr),
      (validate_tests_traced tests cfg params).2 = some e →
      run_tests_model tests cfg params remote send_ok
        = ((validate_tests_traced tests cfg params).1.map Event.checked,
           .error (.validation e)))
    ∧ (∀ (l1 : List String) (t : String) (l2 : List String)
        (cfg : TestConfig) (params : ServiceParams) (e : VErr),
      (∀ x ∈ l1, check_test x cfg params = none) →
      check_test t cfg params = some e →
      validate_tests_traced (l1 ++ t :: l2) cfg params = (l1, some e))
    ∧ (∀ (tests : List String) (cfg : TestConfig) (params : ServiceParams),
      (∀ x ∈ tests, check_test x cfg params = none) →
      validate_tests_traced tests cfg params = (tests, none)) := by
  refine ⟨?_, ?_, ?_⟩
  · intro tests cfg params remote send_ok e he
    unfold run_tests_model
    rcases hv : validate_tests_traced tests cfg params with ⟨tr, verr⟩
    rw [hv] at he
    simp at he
    simp [he]
  · intro l1 t l2 cfg params e h1 ht
    induction l1 with
    | nil => simp [validate_tests_traced, ht]
    | cons x rest ih =>
      have hx : check_test x cfg params = none := h1 x (by simp)
      have hrest : ∀ y ∈ rest, check_test y cfg params = none :=
        fun y hy => h1 y (by simp [hy])
      simp [validate_tests_traced, hx, ih hrest]
  · intro tests cfg params h
    induction tests with
    | nil => rfl
    | cons t rest ih =>
      have ht : check_test t cfg params = none := h t (by simp)
      have hrest : ∀ y ∈ rest, check_test y cfg params = none :=
        fun y hy => h y (by simp [hy])
      simp [validate_tests_traced, ht, ih hrest]

/-- Claim C3, witness for the amended theorem: the concrete two-invalid
table aborts with the first error and no dispatch, the fail-fast shape
holds there, and a fully valid selection is checked in full. -/
theorem batch_validation_amended_witness :
    run_tests_model ["t1", "t2"] cfgTwoInvalid paramsBodyX true (fun _ => true)
      = ([], .error (.validation (.typeMismatch "t1" "x" "string" (.int 1))))
    ∧ validate_tests_traced ["t1", "t2"] cfgTwoInvalid paramsBodyX
      = ([], some (.typeMismatch "t1" "x" "string" (.int 1)))
    ∧ validate_tests_traced ["a", "b"] cfgTwoValid paramsBodyX = (["a", "b"], none) := by
  refine ⟨?_, ?_, ?_⟩
  · exact batch_validation_amended.1 ["t1", "t2"] cfgTwoInvalid paramsBodyX true
      (fun _ => true) (.typeMismatch "t1" "x" "string" (.int 1)) rfl
  · exact batch_validation_amended.2.1 [] "t1" ["t2"] cfgTwoInvalid paramsBodyX
      (.typeMismatch "t1" "x" "string" (.int 1)) (by simp) rfl
  · exact batch_validation_amended.2.2 ["a", "b"] cfgTwoValid paramsBodyX
      (by intro x hx; fin_cases hx <;> rfl)

/-! Claim C4. -/

/-- Claim C4, counterexample. The claim says the registry credential is
never passed as a command-line argument to the container engine. The
login stage of build_tag_and_push_image passes it in the argument
vector, directly after the literal --password flag: with credential tok
the login command argv contains tok. -/
theorem login_credential_counterexample :
    (⟨"podman", ["login", "ghcr.io", "--username", "USERNAME", "--password", "tok"]⟩ : Cmd)
      ∈ build_tag_and_push_cmds "sid" "uri" "tok"
    ∧ "tok" ∈ (Cmd.mk "podman"
        ["login", "ghcr.io", "--username", "USERNAME", "--password", "tok"]).args := by
  refine ⟨by decide, by decide⟩

/-- Claim C4, amended. The credential travels in the argument vector of
the login stage: the third command of the pipeline is podman login with
argv ending in --password followed by the token, and whenever the token
differs from the service id, the image reference and the fixed literal
arguments, the login command is the only command whose argv carries
it. -/
theorem login_credential_amended (sid uri token : String)
    (hsid : token ≠ sid) (huri : token ≠ uri)
    (hfixed : token ∉ ["build", "-t", ".", "tag", "login", "ghcr.io",
      "--username", "USERNAME", "--password", "push"]) :
    (build_tag_and_push_cmds sid uri token).get? 2
      = some ⟨"podman", ["login", "ghcr.io", "--username", "USERNAME", "--password", token]⟩
    ∧ (∀ c ∈ build_tag_and_push_cmds sid uri token,
        (token ∈ c.args ↔
          c = ⟨"podman", ["login", "ghcr.io", "--username", "USERNAME", "--password", token]⟩)) := by
  simp only [List.mem_cons, List.mem_singleton] at hfixed
  push_neg at hfixed
  obtain ⟨h1, h2, h3, h4, h5, h6, h7, h8, h9, h10⟩ := hfixed
  refine ⟨rfl, ?_⟩
  intro c hc
  simp only [build_tag_and_push_cmds, List.mem_cons, List.not_mem_nil, or_false] at hc
  rcases hc with rfl | rfl | rfl | rfl <;>
    simp_all [List.mem_cons]

/-- Claim C4, witness for the amended theorem at a concrete service id,
image reference and token: the login command carries the token and the
push command does not. -/
theorem login_credential_amended_witness :
    (build_tag_and_push_cmds "svc-u" "reg:svc-u" "tok").get? 2
      = some ⟨"podman", ["login", "ghcr.io", "--username", "USERNAME", "--password", "tok"]⟩
    ∧ ("tok" ∈ (Cmd.mk "podman" ["push", "reg:svc-u"]).args
      ↔ (Cmd.mk "podman" ["push", "reg:svc-u"])
        = ⟨"podman", ["login", "ghcr.io", "--username", "USERNAME", "--password", "tok"]⟩) := by
  have h := login_credential_amended "svc-u" "reg:svc-u" "tok"
    (by decide) (by decide) (by decide)
  exact ⟨h.1, h.2 _ (by decide)⟩

/-! Claim C5. -/

/-- A parsed manifest whose resources block declares the unsupported
architecture riscv. -/
def manifestRiscv : List (String × TVal) :=
  [ ("service", .str "svc")
  , ("stage", .str "dev")
  , ("resources", .table
      [("arch", .str "riscv"), ("memory_limit", .int 2048), ("cpu_limit", .int 1)])
  , ("test", .table [("t1", .table [("x", .str "v")])]) ]

/-- A concrete deploy configuration. -/
def confSvc : DeployServiceConf :=
  ⟨"svc", none, some "1", none, "2048", 2⟩

/-- Claim C5, counterexample. The claim says amd64 and arm64 map to
platform flags passed to the build and any other architecture aborts
before the build stage. The code has no architecture handling at all: a
manifest declaring arch riscv deserializes with its resources block
discarded (serde skip), and the deploy pipeline invokes the build as
its very first command, with no platform flag anywhere in the four
command argument vectors. -/
theorem arch_mapping_counterexample :
    (parse_test_config manifestRiscv).map (fun c => c.resources.isSome) = some false
    ∧ (deploy_pipeline_trace confSvc "u" "tok" (fun _ => true)).1.head?
      = some ⟨"podman", ["build", "-t", "svc-u", "."]⟩
    ∧ ∀ c ∈ build_tag_and_push_cmds "svc-u" (image_uri "svc" "u") "tok",
        "--platform" ∉ c.args ∧ "linux/amd64" ∉ c.args ∧ "linux/arm64" ∉ c.args := by
  refine ⟨rfl, rfl, by decide⟩

/-- Claim C5, amended. No architecture mapping or validation exists:
the manifest resources block (arch included) is ignored by
deserialization, the pipeline always invokes the build command first
(no configuration check can abort before it), and no command of the
pipeline carries a platform flag whenever the service id, image
reference and token differ from the flag literal. -/
theorem arch_mapping_amended (v : TVal) (tbl : List (String × TVal))
    (conf : DeployServiceConf) (uuid token : String) (exec : Cmd → Bool)
    (hsid : service_id conf.service_name uuid ≠ "--platform")
    (huri : image_uri conf.service_name uuid ≠ "--platform")
    (htok : token ≠ "--platform") :
    parse_test_config (("resources", v) :: tbl) = parse_test_config tbl
    ∧ (deploy_pipeline_trace conf uuid token exec).1.head?
      = some ⟨"podman", ["build", "-t", service_id conf.service_name uuid, "."]⟩
    ∧ ∀ c ∈ build_tag_and_push_cmds (service_id conf.service_name uuid)
        (image_uri conf.service_name uuid) token, "--platform" ∉ c.args := by
  refine ⟨?_, ?_, ?_⟩
  · unfold parse_test_config
    rw [show findTVal "service" (("resources", v) :: tbl) = findTVal "service" tbl from by
        simp [findTVal]]
    rw [show findTVal "test" (("resources", v) :: tbl) = findTVal "test" tbl from by
        simp [findTVal]]
  · unfold deploy_pipeline_trace build_tag_and_push_cmds exec_staged
    by_cases h : exec ⟨"podman", ["build", "-t", service_id conf.service_name uuid, "."]⟩ <;>
      simp [h]
  · intro c hc
    simp only [build_tag_and_push_cmds, List.mem_cons, List.not_mem_nil, or_false] at hc
    rcases hc with rfl | rfl | rfl | rfl <;>
      simp_all [List.mem_cons, eq_comm]

/-- Claim C5, witness for the amended theorem at concrete inputs: the
riscv resources block is ignored, the build runs first, and the tag
command carries no platform flag. -/
theorem arch_mapping_amended_witness :
    parse_test_config (("resources",
        TVal.table [("arch", .str "riscv")]) :: [("service", .str "svc")])
      = parse_test_config [("service", .str "svc")]
    ∧ (deploy_pipeline_trace confSvc "u" "tok" (fun _ => false)).1.head?
      = some ⟨"podman", ["build", "-t", "svc-u", "."]⟩ := by
  have h := arch_mapping_amended (TVal.table [("arch", .str "riscv")])
    [("service", .str "svc")] confSvc "u" "tok" (fun _ => false)
    (by decide) (by decide) (by decide)
  exact ⟨h.1, h.2.1⟩

/-! Claim C6. -/

/-- Claim C6. Endpoint resolution probes the local base URL first and
returns it on any successful (2xx) liveness response; otherwise it
probes the remote base URL and returns it on a successful response; and
when neither answers successfully, resolution is the fatal panic that
aborts the calling command, modelled as none. -/
theorem endpoint_resolution_order (probe : String → Option Nat) :
    (is_server_available probe LOCAL_SERVER_URL = true →
      lazy_load_server_url probe = some LOCAL_SERVER_URL)
    ∧ (is_server_available probe LOCAL_SERVER_URL = false →
      is_server_available probe REMOTE_SERVER_URL = true →
      lazy_load_server_url probe = some REMOTE_SERVER_URL)
    ∧ (is_server_available probe LOCAL_SERVER_URL = false →
      is_server_available probe REMOTE_SERVER_URL = false →
      lazy_load_server_url probe = none) := by
  refine ⟨?_, ?_, ?_⟩
  · intro h
    simp [lazy_load_server_url, h]
  · intro h h2
    simp [lazy_load_server_url, h, h2]
  · intro h h2
    simp [lazy_load_server_url, h, h2]

/-- Claim C6, witness: with a probe where only the remote URL answers
200, resolution returns the remote base URL. -/
theorem endpoint_resolution_order_witness :
    lazy_load_server_url
      (fun url => if url = REMOTE_SERVER_URL then some 200 else none)
      = some REMOTE_SERVER_URL :=
  (endpoint_resolution_order
    (fun url => if url = REMOTE_SERVER_URL then some 200 else none)).2.1 rfl rfl

/-! Claim C8. -/

/-- Claim C8. Every deployment submission builds its image reference
from the registry, the service name and the freshly generated UUID, so
two submissions of the same service manifest with distinct UUIDs always
produce distinct image references. -/
theorem image_reference_unique (service_name u1 u2 : String) (h : u1 ≠ u2) :
    image_uri service_name u1 ≠ image_uri service_name u2 := by
  intro hc
  apply h
  have hd := congrArg String.data hc
  simp only [image_uri, service_id, String.data_append] at hd
  have h1 := List.append_cancel_left hd
  have h2 := List.append_cancel_left h1
  cases u1
  cases u2
  exact congrArg String.mk (by simpa using h2)

/-- Claim C8, witness: two concrete distinct UUIDs give distinct image
references for the same service name. -/
theorem image_reference_unique_witness :
    image_uri "svc" "aaaa-1111" ≠ image_uri "svc" "bbbb-2222" :=
  image_reference_unique "svc" "aaaa-1111" "bbbb-2222" (by decide)

/-! Claim C9. -/

/-- Claim C9, counterexample. The claim says the raw memory value N
becomes the normalized string N followed by Mi. The code passes the
configured memory string through verbatim: with memory limit 2048 the
assembled quantity is the string 2048, not 2048Mi. -/
theorem memory_quantity_counterexample :
    (assemble_resource_request confSvc).memory_limit = ⟨"2048"⟩
    ∧ (⟨"2048"⟩ : Quantity) ≠ ⟨"2048Mi"⟩ := by
  refine ⟨rfl, by decide⟩

/-- Claim C9, amended. Resource values are passed through verbatim as
Quantity strings: memory is exactly the configured string with no unit
suffix appended, cpu and gpu are the configured strings or the literal
0 when absent, use_gpu reflects presence of a gpu limit, and replicas
and concurrent_jobs remain integers (replicas defaulting to 1). -/
theorem memory_quantity_amended (conf : DeployServiceConf) :
    (assemble_resource_request conf).memory_limit = ⟨conf.memory_limit⟩
    ∧ (assemble_resource_request conf).cpu_limit = ⟨conf.cpu_limit.getD "0"⟩
    ∧ (assemble_resource_request conf).gpu_limit = ⟨conf.gpu_limit.getD "0"⟩
    ∧ (assemble_resource_request conf).use_gpu = conf.gpu_limit.isSome
    ∧ (assemble_resource_request conf).replicas = some (conf.replicas.getD 1)
    ∧ (assemble_resource_request conf).concurrent_jobs = conf.concurrent_jobs :=
  ⟨rfl, rfl, rfl, rfl, rfl, rfl⟩

/-! Claim C10. -/

/-- A field whose name differs from the key being looked up is
invisible to the lookup, wherever it sits in the fixture. -/
theorem findTVal_skip (k name : String) (v : TVal)
    (pre post : List (String × TVal)) (h : k ≠ name) :
    findTVal k (pre ++ (name, v) :: post) = findTVal k (pre ++ post) := by
  induction pre with
  | nil =>
    simp only [List.nil_append, findTVal]
    rw [if_neg (fun hc => h hc.symm)]
  | cons e rest ih =>
    by_cases he : e.1 = k <;> simp [findTVal, he, ih]

/-- Claim C10. Test-fixture validation consults only the declared body
parameters: the outcome is unchanged when the schema path, query or
output groups change (only input.body matters), and a fixture field
whose name is not any declared body parameter name is never examined,
so inserting it anywhere in a fixture changes no parameter check. -/
theorem body_only_validation
    (tests : List String) (cfg : TestConfig) (p1 p2 : ServiceParams)
    (hbody : p1.input.body = p2.input.body)
    (test name : String) (v : TVal) (pre post : List (String × TVal))
    (body : List Param) (hundeclared : ∀ q ∈ body, q.name ≠ name) :
    validate_tests_traced tests cfg p1 = validate_tests_traced tests cfg p2
    ∧ body.findSome? (check_param test (pre ++ (name, v) :: post))
      = body.findSome? (check_param test (pre ++ post)) := by
  constructor
  · have hcheck : ∀ t, check_test t cfg p1 = check_test t cfg p2 := by
      intro t
      unfold check_test
      rw [hbody]
    induction tests with
    | nil => rfl
    | cons t rest ih =>
      unfold validate_tests_traced
      rw [hcheck t, ih]
  · induction body with
    | nil => rfl
    | cons q rest ih =>
      have hq : check_param test (pre ++ (name, v) :: post) q
          = check_param test (pre ++ post) q := by
        unfold check_param
        rw [findTVal_skip q.name name v pre post (hundeclared q (by simp))]
      have hrest : ∀ r ∈ rest, r.name ≠ name :=
        fun r hr => hundeclared r (by simp [hr])
      simp [List.findSome?_cons, hq, ih hrest]

/-- Claim C10, witness: validation of the valid two-test table is
unchanged when the schema gains path and query groups and an output
entry, and when the fixture gains an undeclared field. -/
theorem body_only_validation_witness :
    validate_tests_traced ["a", "b"] cfgTwoValid
      ⟨⟨some [⟨"p", "int", true⟩], some [⟨"q", "float", true⟩],
        some [⟨"x", "string", true⟩]⟩, [("o", ⟨"o", "string", true⟩)]⟩
      = validate_tests_traced ["a", "b"] cfgTwoValid paramsBodyX
    ∧ [Param.mk "x" "string" true].findSome?
        (check_param "a" ([] ++ ("extra", TVal.int 7) :: [("x", TVal.str "v")]))
      = [Param.mk "x" "string" true].findSome?
        (check_param "a" ([] ++ [("x", TVal.str "v")])) := by
  have h := body_only_validation ["a", "b"] cfgTwoValid
    ⟨⟨some [⟨"p", "int", true⟩], some [⟨"q", "float", true⟩],
      some [⟨"x", "string", true⟩]⟩, [("o", ⟨"o", "string", true⟩)]⟩
    paramsBodyX rfl
    "a" "extra" (TVal.int 7) [] [("x", TVal.str "v")]
    [Param.mk "x" "string" true] (by intro q hq; fin_cases hq; decide)
  exact h

end MlxClient
